import Mathlib

/-!
Verification of the record-management service layer of the personal
finance / todo web application: the expense service
(`src/features/expenseService.js`), the todo service (`todoService.js`),
and the local-storage adapter and initialization module
(`src/utils/storage.js`), shallowly embedded as pure Lean functions.

Modelling conventions:
* JavaScript numbers that hold amounts are modelled as `Int` (the code only
  adds and subtracts them); record ids are modelled as `Nat`.
* Dates are the `YYYY-MM-DD` strings the code stores and compares with the
  JavaScript string ordering, modelled by Lean's lexicographic `String` order.
* `generateId()` (`Date.now() + Math.random()`) and `new Date().toISOString()`
  are environment inputs, passed as explicit `gen` / `now` parameters.
* A `localStorage` write (`setItem`) can fail (quota); every service operation
  takes a boolean `ok` that tells whether its persist write succeeds, and
  returns the pair (JS return value, sequence visible in storage afterwards).
* JavaScript object spread `{...base, ...data}` is modelled by `Option.getD`:
  a field present in `data` overrides the base value, an absent one keeps it.
-/

/-- A ledger (expense/income) record as stored by `expenseService.js`. -/
structure Expense where
  id : Nat
  amount : Int
  description : String
  category : String
  type : String
  date : String
  createdAt : String
deriving Repr, DecidableEq

/-- Caller-supplied data for `addExpense`. The fields the service always
reads (`amount`, `description`, `category`, `type`, `date`) are mandatory;
`id` / `createdAt` are optional extra fields that, via the `...expenseData`
spread, override the generated ones when present. -/
structure ExpenseData where
  amount : Int
  description : String
  category : String
  type : String
  date : String
  id : Option Nat := none
  createdAt : Option String := none
deriving Repr, DecidableEq

/-- A shallow-merge patch for `updateExpense` (`{...old, ...updateData}`). -/
structure ExpensePatch where
  id : Option Nat := none
  amount : Option Int := none
  description : Option String := none
  category : Option String := none
  type : Option String := none
  date : Option String := none
  createdAt : Option String := none
deriving Repr, DecidableEq

/-- `expenses[index] = { ...expenses[index], ...updateData }`. -/
def applyExpensePatch (e : Expense) (p : ExpensePatch) : Expense :=
  { id := p.id.getD e.id
    amount := p.amount.getD e.amount
    description := p.description.getD e.description
    category := p.category.getD e.category
    type := p.type.getD e.type
    date := p.date.getD e.date
    createdAt := p.createdAt.getD e.createdAt }

/-- The record built inside `addExpense`: generated `id`/`createdAt` first,
then `...expenseData` spread on top (so a caller-supplied `id`/`createdAt`
wins; `amount` ends up as the raw caller value, `parseFloat` of a numeric
amount being the identity). -/
def mkNewExpense (gen : Nat) (now : String) (d : ExpenseData) : Expense :=
  { id := d.id.getD gen
    amount := d.amount
    description := d.description
    category := d.category
    type := d.type
    date := d.date
    createdAt := d.createdAt.getD now }

/-- `addExpense(expenseData)`: append the new record, persist, return the
record on success and `null` on write failure (storage then unchanged). -/
def addExpense (gen : Nat) (now : String) (ok : Bool) (expenses : List Expense)
    (d : ExpenseData) : Option Expense × List Expense :=
  let newExpense := mkNewExpense gen now d
  if ok then (some newExpense, expenses ++ [newExpense]) else (none, expenses)

/-- `updateExpense(id, updateData)`: locate by `findIndex`; absent id
returns `null` with nothing written; otherwise shallow-merge and persist. -/
def updateExpense (ok : Bool) (expenses : List Expense) (i : Nat)
    (p : ExpensePatch) : Option Expense × List Expense :=
  match expenses.findIdx? (fun e => e.id == i) with
  | none => (none, expenses)
  | some j =>
    match expenses[j]? with
    | none => (none, expenses)  -- unreachable: findIdx? returns in-bounds indices
    | some e =>
      let merged := applyExpensePatch e p
      if ok then (some merged, expenses.set j merged) else (none, expenses)

/-- `deleteExpense(id)`: filter out the matching records; `false` when the
length is unchanged (nothing matched), otherwise the persist write's flag. -/
def deleteExpense (ok : Bool) (expenses : List Expense) (i : Nat) :
    Bool × List Expense :=
  let filteredExpenses := expenses.filter (fun e => !(e.id == i))
  if filteredExpenses.length = expenses.length then (false, expenses)
  else if ok then (true, filteredExpenses) else (false, expenses)

/-- Result shape of `getExpenseStats`. -/
structure ExpenseStats where
  totalIncome : Int
  totalExpense : Int
  balance : Int
  incomeCount : Nat
  expenseCount : Nat
  totalCount : Nat
deriving Repr, DecidableEq

/-- JavaScript's `<` on two date strings: lexicographic comparison by code
point, executable on the strings' character lists (equivalent to `String`'s
`<`, see `dateLtb_eq_decide_lt`). -/
def dateLtb (a b : String) : Bool :=
  decide (a.data < b.data)

/-- `getExpenseStats(startDate, endDate)`: filter by the date range only when
a bound is supplied (`expenseDate < startDate` / `expenseDate > endDate`
excluded), then split by `type` and sum amounts with `reduce`. -/
def getExpenseStats (startDate endDate : Option String)
    (expenses₀ : List Expense) : ExpenseStats :=
  let expenses :=
    if startDate.isSome || endDate.isSome then
      expenses₀.filter (fun e =>
        !(startDate.any (fun s => dateLtb e.date s)) &&
        !(endDate.any (fun t => dateLtb t e.date)))
    else expenses₀
  let income := expenses.filter (fun e => e.type == "income")
  let expense := expenses.filter (fun e => e.type == "expense")
  let totalIncome := income.foldl (fun sum item => sum + item.amount) 0
  let totalExpense := expense.foldl (fun sum item => sum + item.amount) 0
  { totalIncome := totalIncome
    totalExpense := totalExpense
    balance := totalIncome - totalExpense
    incomeCount := income.length
    expenseCount := expense.length
    totalCount := expenses.length }

/-- Gregorian leap-year test, the rule implemented by the JavaScript `Date`
object that `getMonthlyStats` consults. -/
def isLeapYear (y : Nat) : Bool :=
  (y % 4 == 0 && y % 100 != 0) || y % 400 == 0

/-- `new Date(year, month, 0).getDate()` for `1 ≤ month ≤ 12`: the number of
days of month `month` of year `year` in the Gregorian calendar. -/
def daysInMonth (y m : Nat) : Nat :=
  if m = 2 then (if isLeapYear y then 29 else 28)
  else if m = 4 || m = 6 || m = 9 || m = 11 then 30
  else 31

/-- `String(n).padStart(2, '0')` for a natural number `n`. -/
def pad2 (n : Nat) : String :=
  if n < 10 then "0" ++ toString n else toString n

/-- The `` `${year}-${month…}-${day…}` `` date strings built by
`getMonthlyStats` (year unpadded, month and day zero-padded to 2 digits). -/
def mkDateStr (y m d : Nat) : String :=
  toString y ++ "-" ++ pad2 m ++ "-" ++ pad2 d

/-- `getMonthlyStats(year, month)`: a falsy (`0`) year or month falls back to
the current one (`nowY` / `nowM`); delegates to `getExpenseStats` with the
first and last calendar day of the month as inclusive bounds. -/
def getMonthlyStats (nowY nowM : Nat) (year month : Nat)
    (expenses : List Expense) : ExpenseStats :=
  let targetYear := if year = 0 then nowY else year
  let targetMonth := if month = 0 then nowM else month
  let startDate := mkDateStr targetYear targetMonth 1
  let endDate := mkDateStr targetYear targetMonth (daysInMonth targetYear targetMonth)
  getExpenseStats (some startDate) (some endDate) expenses

/-- Per-category accumulator entry of `getCategoryStats`
(`{count, total, type}`; `type` is set when the category is first seen). -/
structure CategoryStat where
  count : Nat
  total : Int
  type : String
deriving Repr, DecidableEq

/-- One step of the `getCategoryStats` loop: create the category's entry on
first sight, otherwise bump `count` and `total` in place (insertion order of
the keys is preserved, and `type` keeps its first value). -/
def bumpCategory : List (String × CategoryStat) → Expense →
    List (String × CategoryStat)
  | [], e => [(e.category, ⟨1, e.amount, e.type⟩)]
  | (c, s) :: rest, e =>
    if c = e.category then (c, ⟨s.count + 1, s.total + e.amount, s.type⟩) :: rest
    else (c, s) :: bumpCategory rest e

/-- The optional `type` pre-filter at the top of `getCategoryStats`. -/
def filterByType (type : Option String) (expenses₀ : List Expense) :
    List Expense :=
  match type with
  | some t => expenses₀.filter (fun e => e.type == t)
  | none => expenses₀

/-- `getCategoryStats(type)`: optionally pre-filter by `type`, then fold the
records into a category-keyed mapping, adding each raw `amount` to its
category's running `total`. -/
def getCategoryStats (type : Option String) (expenses₀ : List Expense) :
    List (String × CategoryStat) :=
  (filterByType type expenses₀).foldl bumpCategory []

/-- A todo record as stored by `todoService.js`. -/
structure Todo where
  id : Nat
  text : String
  completed : Bool
  date : String
  priority : String
  category : String
  createdAt : String
deriving Repr, DecidableEq

/-- Caller-supplied data for `addTodo`; optional fields override the
generated/default ones via the `...todoData` spread. -/
structure TodoData where
  text : String
  date : String
  priority : Option String := none
  category : Option String := none
  id : Option Nat := none
  completed : Option Bool := none
  createdAt : Option String := none
deriving Repr, DecidableEq

/-- A shallow-merge patch for `updateTodo`. -/
structure TodoPatch where
  id : Option Nat := none
  text : Option String := none
  completed : Option Bool := none
  date : Option String := none
  priority : Option String := none
  category : Option String := none
  createdAt : Option String := none
deriving Repr, DecidableEq

/-- `todos[index] = { ...todos[index], ...updateData }`. -/
def applyTodoPatch (t : Todo) (p : TodoPatch) : Todo :=
  { id := p.id.getD t.id
    text := p.text.getD t.text
    completed := p.completed.getD t.completed
    date := p.date.getD t.date
    priority := p.priority.getD t.priority
    category := p.category.getD t.category
    createdAt := p.createdAt.getD t.createdAt }

/-- The record built inside `addTodo`: generated/default fields first, then
the `...todoData` spread on top. (For `priority`/`category` the composite of
`todoData.priority || 'medium'` with the later spread is exactly
`Option.getD`: an absent field gets the default, a present one — even a
falsy `""` — wins.) -/
def mkNewTodo (gen : Nat) (now : String) (d : TodoData) : Todo :=
  { id := d.id.getD gen
    text := d.text
    completed := d.completed.getD false
    date := d.date
    priority := d.priority.getD "medium"
    category := d.category.getD "其他"
    createdAt := d.createdAt.getD now }

/-- `addTodo(todoData)`: append, persist, return the record or `null`. -/
def addTodo (gen : Nat) (now : String) (ok : Bool) (todos : List Todo)
    (d : TodoData) : Option Todo × List Todo :=
  let newTodo := mkNewTodo gen now d
  if ok then (some newTodo, todos ++ [newTodo]) else (none, todos)

/-- `updateTodo(id, updateData)`: same shape as `updateExpense`. -/
def updateTodo (ok : Bool) (todos : List Todo) (i : Nat) (p : TodoPatch) :
    Option Todo × List Todo :=
  match todos.findIdx? (fun t => t.id == i) with
  | none => (none, todos)
  | some j =>
    match todos[j]? with
    | none => (none, todos)  -- unreachable: findIdx? returns in-bounds indices
    | some t =>
      let merged := applyTodoPatch t p
      if ok then (some merged, todos.set j merged) else (none, todos)

/-- `toggleTodo(id)`: flip `completed` of the first record with that id,
persist; absent id or failed write returns `null` (storage then unchanged). -/
def toggleTodo (ok : Bool) (todos : List Todo) (i : Nat) :
    Option Todo × List Todo :=
  match todos.findIdx? (fun t => t.id == i) with
  | none => (none, todos)
  | some j =>
    match todos[j]? with
    | none => (none, todos)  -- unreachable: findIdx? returns in-bounds indices
    | some t =>
      let toggled : Todo := { t with completed := !t.completed }
      if ok then (some toggled, todos.set j toggled) else (none, todos)

/-- `deleteTodo(id)`: same shape as `deleteExpense`. -/
def deleteTodo (ok : Bool) (todos : List Todo) (i : Nat) : Bool × List Todo :=
  let filteredTodos := todos.filter (fun t => !(t.id == i))
  if filteredTodos.length = todos.length then (false, todos)
  else if ok then (true, filteredTodos) else (false, todos)

/-- Result shape of `getTodoStats`. -/
structure TodoStats where
  total : Nat
  completed : Nat
  pending : Nat
  high : Nat
  medium : Nat
  low : Nat
deriving Repr, DecidableEq

/-- The optional single-date scope at the top of `getTodoStats`. -/
def filterTodosByDate (date : Option String) (todos₀ : List Todo) :
    List Todo :=
  match date with
  | some dateStr => todos₀.filter (fun t => t.date == dateStr)
  | none => todos₀

/-- `getTodoStats(date)`, continued: the six counters. -/
def getTodoStats (date : Option String) (todos₀ : List Todo) : TodoStats :=
  let todos : List Todo := filterTodosByDate date todos₀
  { total := todos.length
    completed := (todos.filter (fun t => t.completed)).length
    pending := (todos.filter (fun t => !t.completed)).length
    high := (todos.filter (fun t => t.priority == "high")).length
    medium := (todos.filter (fun t => t.priority == "medium")).length
    low := (todos.filter (fun t => t.priority == "low")).length }

/-!
The key-value store adapter (`src/utils/storage.js`). `localStorage` holds
JSON texts; since `JSON.stringify` / `JSON.parse` are mutually inverse on
well-formed JSON data, stored values are modelled as JSON *values* (`JsonVal`)
rather than their serialized texts, and a stored record is the JSON object
the services serialize.
-/

/-- A JSON value. -/
inductive JsonVal where
  | str : String → JsonVal
  | num : Int → JsonVal
  | bool : Bool → JsonVal
  | null : JsonVal
  | arr : List JsonVal → JsonVal
  | obj : List (String × JsonVal) → JsonVal
deriving Repr

/-- The `localStorage` namespace: a string-keyed map to stored JSON values
(`none` = key absent). -/
def Store : Type := String → Option JsonVal

/-- `localStorage.getItem(key)`. -/
def getItem (st : Store) (key : String) : Option JsonVal := st key

/-- `localStorage.setItem(key, JSON.stringify(v))`; `ok` is the outcome of
the write (`false` = quota failure, the store is then unchanged). -/
def setItem (st : Store) (key : String) (v : JsonVal) (ok : Bool) : Store :=
  if ok then fun k => if k = key then some v else st k else st

namespace storage

/-- `storage.get(key)`: `JSON.parse(localStorage.getItem(key) || '[]')`;
an absent key yields the empty array. -/
def get (st : Store) (key : String) : JsonVal :=
  (getItem st key).getD (JsonVal.arr [])

/-- `storage.set(key, data)`: persist and report success. -/
def set (st : Store) (key : String) (data : JsonVal) (ok : Bool) :
    Bool × Store :=
  (ok, setItem st key data ok)

end storage

/-- JSON object field lookup. -/
def jsonField (fields : List (String × JsonVal)) (k : String) :
    Option JsonVal :=
  fields.lookup k

/-- The JSON object `JSON.stringify` produces for an `Expense`. -/
def encodeExpense (e : Expense) : JsonVal :=
  JsonVal.obj [("id", JsonVal.num e.id), ("amount", JsonVal.num e.amount),
    ("description", JsonVal.str e.description),
    ("category", JsonVal.str e.category), ("type", JsonVal.str e.type),
    ("date", JsonVal.str e.date), ("createdAt", JsonVal.str e.createdAt)]

/-- Read a parsed JSON value back as an `Expense` (the typed counterpart of
using the object `JSON.parse` returns as a record). -/
def decodeExpense : JsonVal → Option Expense
  | JsonVal.obj fs =>
    match jsonField fs "id", jsonField fs "amount",
        jsonField fs "description", jsonField fs "category",
        jsonField fs "type", jsonField fs "date", jsonField fs "createdAt" with
    | some (JsonVal.num i), some (JsonVal.num a), some (JsonVal.str de),
        some (JsonVal.str c), some (JsonVal.str ty), some (JsonVal.str da),
        some (JsonVal.str ca) =>
      if 0 ≤ i then some ⟨i.toNat, a, de, c, ty, da, ca⟩ else none
    | _, _, _, _, _, _, _ => none
  | _ => none

/-- The JSON array `saveExpenses` serializes. -/
def encodeExpenseList (l : List Expense) : JsonVal :=
  JsonVal.arr (l.map encodeExpense)

/-- Read a parsed JSON value back as an expense sequence. -/
def decodeExpenseList : JsonVal → Option (List Expense)
  | JsonVal.arr js => js.mapM decodeExpense
  | _ => none

/-- The JSON object `JSON.stringify` produces for a `Todo`. -/
def encodeTodo (t : Todo) : JsonVal :=
  JsonVal.obj [("id", JsonVal.num t.id), ("text", JsonVal.str t.text),
    ("completed", JsonVal.bool t.completed), ("date", JsonVal.str t.date),
    ("priority", JsonVal.str t.priority),
    ("category", JsonVal.str t.category),
    ("createdAt", JsonVal.str t.createdAt)]

/-- Read a parsed JSON value back as a `Todo`. -/
def decodeTodo : JsonVal → Option Todo
  | JsonVal.obj fs =>
    match jsonField fs "id", jsonField fs "text", jsonField fs "completed",
        jsonField fs "date", jsonField fs "priority",
        jsonField fs "category", jsonField fs "createdAt" with
    | some (JsonVal.num i), some (JsonVal.str te), some (JsonVal.bool co),
        some (JsonVal.str da), some (JsonVal.str pr), some (JsonVal.str ca),
        some (JsonVal.str cr) =>
      if 0 ≤ i then some ⟨i.toNat, te, co, da, pr, ca, cr⟩ else none
    | _, _, _, _, _, _, _ => none
  | _ => none

/-- The JSON array `saveTodos` serializes. -/
def encodeTodoList (l : List Todo) : JsonVal :=
  JsonVal.arr (l.map encodeTodo)

/-- Read a parsed JSON value back as a todo sequence. -/
def decodeTodoList : JsonVal → Option (List Todo)
  | JsonVal.arr js => js.mapM decodeTodo
  | _ => none

/-- The settings object written by `initializeData`. -/
def settingsObj (now : String) : JsonVal :=
  JsonVal.obj [("initialized", JsonVal.bool true),
    ("version", JsonVal.str "2.0"), ("currency", JsonVal.str "TWD"),
    ("created_at", JsonVal.str now)]

/-- `initializeData()`: if the settings key is present, return untouched;
otherwise write the default settings and an empty array under every record
kind's key. (All five writes are modelled as succeeding: the claim concerns
the state-machine logic, and the settings write in the source is not even
guarded by a try/catch.) -/
def initializeData (now : String) (st : Store) : Store :=
  match getItem st "finance_settings" with
  | some _ => st
  | none =>
    let st1 := setItem st "finance_settings" (settingsObj now) true
    let st2 := setItem st1 "finance_todos" (JsonVal.arr []) true
    let st3 := setItem st2 "finance_expenses" (JsonVal.arr []) true
    let st4 := setItem st3 "finance_budgets" (JsonVal.arr []) true
    setItem st4 "finance_templates" (JsonVal.arr []) true

/-- `loadExpenses()`: parse the `'expenses'` key (absent → `[]`), read the
parsed array as records (a non-array or ill-formed element degrades to `[]`,
the adapter's parse-failure fallback). -/
def loadExpenses (st : Store) : List Expense :=
  (decodeExpenseList (storage.get st "expenses")).getD []

/-- `saveExpenses(expenses)`: serialize under `'expenses'`, report success. -/
def saveExpenses (st : Store) (l : List Expense) (ok : Bool) : Bool × Store :=
  (ok, setItem st "expenses" (encodeExpenseList l) ok)

/-- `loadTodos()` on the `'todos'` key. -/
def loadTodos (st : Store) : List Todo :=
  (decodeTodoList (storage.get st "todos")).getD []

/-- `saveTodos(todos)` on the `'todos'` key. -/
def saveTodos (st : Store) (l : List Todo) (ok : Bool) : Bool × Store :=
  (ok, setItem st "todos" (encodeTodoList l) ok)

/-! ### Concrete sample data used by witnesses and counterexamples -/

/-- A sample stored ledger record with id 5. -/
def cEx : Expense := ⟨5, 10, "lunch", "food", "expense", "2025-01-01", "t0"⟩

/-- A sample stored todo record with id 7. -/
def cTd : Todo := ⟨7, "buy milk", false, "2025-01-02", "medium", "其他", "t0"⟩

/-- Sample caller data for `addExpense` with no `id`/`createdAt` override. -/
def cData : ExpenseData :=
  { amount := 10, description := "lunch", category := "food",
    type := "expense", date := "2025-01-01" }

/-- Sample caller data for `addTodo` with no overrides. -/
def cTData : TodoData := { text := "buy milk", date := "2025-01-02" }

/-- An income and an expense record sharing the category `"food"`. -/
def cIncFood : Expense := ⟨1, 100, "refund", "food", "income", "2025-01-01", "t0"⟩

/-- See `cIncFood`. -/
def cExpFood : Expense := ⟨2, 30, "snack", "food", "expense", "2025-01-02", "t0"⟩

/-- The ledger of the spec's concrete `monthlyStats(2025, 6)` scenario. -/
def scenarioLedger : List Expense :=
  [⟨1, 50000, "salary", "工作", "income", "2025-06-01", "t0"⟩,
   ⟨2, 150, "lunch", "餐飲", "expense", "2025-06-01", "t0"⟩,
   ⟨3, 800, "books", "教育", "expense", "2025-06-02", "t0"⟩]

/-- A `localStorage` namespace with no keys set. -/
def emptyStore : Store := fun _ => none

/-! ### Shared helper lemmas -/

/-- A `reduce`-style left fold of `+ amount` is the sum of the amounts. -/
theorem foldl_add_amount (l : List Expense) (a : Int) :
    l.foldl (fun sum item => sum + item.amount) a =
      a + (l.map Expense.amount).sum := by
  induction l generalizing a with
  | nil => simp
  | cons e es ih => simp [ih, add_assoc]

/-- Setting an index back to the element already there is the identity. -/
theorem set_getElem_self (l : List Todo) (j : Nat) (h : j < l.length) :
    l.set j l[j] = l := by
  induction l generalizing j with
  | nil => simp
  | cons t ts ih =>
    cases j with
    | zero => simp
    | succ k => simpa using ih k (by simpa using h)

/-! ### C10: todo statistics counting identity -/

/-- C10: for every stored todo sequence and optional date filter, the todo
statistics satisfy `total = completed + pending`, where `completed` counts
the records whose completion flag is `true` and `pending` those whose flag
is `false` among the date-filtered records. -/
theorem getTodoStats_total_split (date : Option String) (todos : List Todo) :
    (getTodoStats date todos).total =
        (getTodoStats date todos).completed + (getTodoStats date todos).pending ∧
    (getTodoStats date todos).completed =
        ((filterTodosByDate date todos).filter (fun t => t.completed)).length ∧
    (getTodoStats date todos).pending =
        ((filterTodosByDate date todos).filter (fun t => !t.completed)).length := by
  refine ⟨?_, rfl, rfl⟩
  simpa [getTodoStats] using
    List.length_eq_length_filter_add (l := filterTodosByDate date todos)
      (fun t => t.completed)

/-! ### C6: update/delete on an absent id -/

/-- C6: for every id not present in the stored sequence and every patch,
`update(id, patch)` leaves the sequence unchanged and returns `null`, and
`delete(id)` leaves the sequence unchanged and returns `false` — for the
expense service and the todo service alike, whatever the persist write
would have done. -/
theorem update_delete_missing_id (ok : Bool) (l : List Expense)
    (p : ExpensePatch) (tl : List Todo) (tp : TodoPatch) (i : Nat)
    (h : i ∉ l.map Expense.id) (ht : i ∉ tl.map Todo.id) :
    updateExpense ok l i p = (none, l) ∧
    deleteExpense ok l i = (false, l) ∧
    updateTodo ok tl i tp = (none, tl) ∧
    deleteTodo ok tl i = (false, tl) := by
  have hne : ∀ e ∈ l, (e.id == i) = false := by
    intro e he
    by_contra hbe
    exact h (List.mem_map.mpr ⟨e, he, by simpa using hbe⟩)
  have htne : ∀ t ∈ tl, (t.id == i) = false := by
    intro t hte
    by_contra hbe
    exact ht (List.mem_map.mpr ⟨t, hte, by simpa using hbe⟩)
  refine ⟨?_, ?_, ?_, ?_⟩
  · rw [updateExpense, List.findIdx?_eq_none_iff.mpr hne]
  · rw [deleteExpense]
    have : (l.filter (fun e => !(e.id == i))).length = l.length :=
      List.filter_length_eq_length.mpr (by simpa using hne)
    simp [this]
  · rw [updateTodo, List.findIdx?_eq_none_iff.mpr htne]
  · rw [deleteTodo]
    have : (tl.filter (fun t => !(t.id == i))).length = tl.length :=
      List.filter_length_eq_length.mpr (by simpa using htne)
    simp [this]

/-- C6 witness: id 99 is in neither sample sequence; both services leave
their sequences untouched and report `null`/`false`. -/
theorem update_delete_missing_id_witness :
    updateExpense true [cEx] 99 {} = (none, [cEx]) ∧
    deleteExpense true [cEx] 99 = (false, [cEx]) ∧
    updateTodo true [cTd] 99 {} = (none, [cTd]) ∧
    deleteTodo true [cTd] 99 = (false, [cTd]) :=
  update_delete_missing_id true [cEx] {} [cTd] {} 99 (by decide) (by decide)

/-! ### C2: delete's boolean result -/

/-- Removing an absent id filters out nothing. -/
theorem length_filter_ne_id_of_not_mem (l : List Expense) (i : Nat)
    (h : i ∉ l.map Expense.id) :
    (l.filter (fun e => !(e.id == i))).length = l.length := by
  refine List.filter_length_eq_length.mpr ?_
  intro e he
  have : e.id ≠ i := fun hei => h (List.mem_map.mpr ⟨e, he, hei⟩)
  simpa using this

/-- Removing a present id strictly shrinks the sequence. -/
theorem length_filter_ne_id_of_mem (l : List Expense) (i : Nat)
    (h : i ∈ l.map Expense.id) :
    (l.filter (fun e => !(e.id == i))).length ≠ l.length := by
  intro hlen
  obtain ⟨e, he, hei⟩ := List.mem_map.mp h
  have := List.filter_length_eq_length.mp hlen e he
  simp [hei] at this

/-- Todo counterpart of `length_filter_ne_id_of_not_mem`. -/
theorem length_filter_ne_id_of_not_mem_todo (tl : List Todo) (i : Nat)
    (h : i ∉ tl.map Todo.id) :
    (tl.filter (fun t => !(t.id == i))).length = tl.length := by
  refine List.filter_length_eq_length.mpr ?_
  intro t ht
  have : t.id ≠ i := fun hti => h (List.mem_map.mpr ⟨t, ht, hti⟩)
  simpa using this

/-- Todo counterpart of `length_filter_ne_id_of_mem`. -/
theorem length_filter_ne_id_of_mem_todo (tl : List Todo) (i : Nat)
    (h : i ∈ tl.map Todo.id) :
    (tl.filter (fun t => !(t.id == i))).length ≠ tl.length := by
  intro hlen
  obtain ⟨t, ht, hti⟩ := List.mem_map.mp h
  have := List.filter_length_eq_length.mp hlen t ht
  simp [hti] at this

/-- C2 (amended): `delete(id)` returns `false` when no record has that id
(sequence unchanged); when a record matched it returns the persist write's
success flag — `true` exactly when the write succeeds, and on a failed write
it returns `false` with the stored sequence unchanged. (The claim's "true
even if the persist write fails" does not hold: the code returns
`saveExpenses(filtered)`.) -/
theorem delete_result_spec (ok : Bool) (l : List Expense) (tl : List Todo)
    (i k : Nat) :
    (i ∉ l.map Expense.id → deleteExpense ok l i = (false, l)) ∧
    (i ∈ l.map Expense.id →
      deleteExpense ok l i =
        (ok, if ok then l.filter (fun e => !(e.id == i)) else l)) ∧
    (k ∉ tl.map Todo.id → deleteTodo ok tl k = (false, tl)) ∧
    (k ∈ tl.map Todo.id →
      deleteTodo ok tl k =
        (ok, if ok then tl.filter (fun t => !(t.id == k)) else tl)) := by
  refine ⟨?_, ?_, ?_, ?_⟩
  · intro h
    rw [deleteExpense]
    simp [length_filter_ne_id_of_not_mem l i h]
  · intro h
    rw [deleteExpense]
    rw [if_neg (length_filter_ne_id_of_mem l i h)]
    cases ok <;> simp
  · intro h
    rw [deleteTodo]
    simp [length_filter_ne_id_of_not_mem_todo tl k h]
  · intro h
    rw [deleteTodo]
    rw [if_neg (length_filter_ne_id_of_mem_todo tl k h)]
    cases ok <;> simp

/-- C2 witness: with the sample one-record sequences, an unmatched delete
returns `false`, and a matched delete with a successful write returns `true`
and drops the record. -/
theorem delete_result_spec_witness :
    deleteExpense true [cEx] 99 = (false, [cEx]) ∧
    deleteExpense true [cEx] 5 = (true, []) ∧
    deleteTodo true [cTd] 7 = (true, []) := by
  refine ⟨(delete_result_spec true [cEx] [cTd] 99 7).1 (by decide), ?_, ?_⟩
  · have := (delete_result_spec true [cEx] [cTd] 5 7).2.1 (by decide)
    simpa using this
  · have := (delete_result_spec true [cEx] [cTd] 5 7).2.2.2 (by decide)
    simpa using this

/-- C2 counterexample: the record with id 5 is present, so a record is
filtered out, yet `deleteExpense` returns `false` when the persist write
fails — the claim's "returns true … even if the underlying persist write
itself fails" is false of the code. -/
theorem deleteExpense_false_on_failed_write :
    cEx.id = 5 ∧ (deleteExpense false [cEx] 5).1 = false := by
  exact ⟨rfl, rfl⟩

/-! ### C1: add returns a fresh record and appends it -/

/-- C1 (amended): provided the generated id differs from every stored id,
the caller data does not itself carry an `id` field (which the
`...data` spread would let override the generated one), and the persist
write succeeds, `addExpense`/`addTodo` return a record whose id is not the
id of any record already in the sequence, and the sequence afterwards is
the old one with exactly that record appended (so it has exactly one more
record than before). -/
theorem add_fresh_spec (gen : Nat) (now : String) (l : List Expense)
    (d : ExpenseData) (tgen : Nat) (tnow : String) (tl : List Todo)
    (td : TodoData) (hg : gen ∉ l.map Expense.id) (hd : d.id = none)
    (htg : tgen ∉ tl.map Todo.id) (htd : td.id = none) :
    (addExpense gen now true l d).1 = some (mkNewExpense gen now d) ∧
    (mkNewExpense gen now d).id ∉ l.map Expense.id ∧
    (addExpense gen now true l d).2 = l ++ [mkNewExpense gen now d] ∧
    (addExpense gen now true l d).2.length = l.length + 1 ∧
    (addTodo tgen tnow true tl td).1 = some (mkNewTodo tgen tnow td) ∧
    (mkNewTodo tgen tnow td).id ∉ tl.map Todo.id ∧
    (addTodo tgen tnow true tl td).2 = tl ++ [mkNewTodo tgen tnow td] ∧
    (addTodo tgen tnow true tl td).2.length = tl.length + 1 := by
  have hid : (mkNewExpense gen now d).id = gen := by
    simp [mkNewExpense, hd]
  have htid : (mkNewTodo tgen tnow td).id = tgen := by
    simp [mkNewTodo, htd]
  refine ⟨rfl, by rw [hid]; exact hg, rfl, by simp [addExpense],
    rfl, by rw [htid]; exact htg, rfl, by simp [addTodo]⟩

/-- C1 witness: a fresh generated id 6 against the sample sequences. -/
theorem add_fresh_spec_witness :
    (addExpense 6 "t1" true [cEx] cData).1 = some (mkNewExpense 6 "t1" cData) ∧
    (mkNewExpense 6 "t1" cData).id ∉ [cEx].map Expense.id ∧
    (addExpense 6 "t1" true [cEx] cData).2 = [cEx] ++ [mkNewExpense 6 "t1" cData] ∧
    (addExpense 6 "t1" true [cEx] cData).2.length = [cEx].length + 1 ∧
    (addTodo 8 "t1" true [cTd] cTData).1 = some (mkNewTodo 8 "t1" cTData) ∧
    (mkNewTodo 8 "t1" cTData).id ∉ [cTd].map Todo.id ∧
    (addTodo 8 "t1" true [cTd] cTData).2 = [cTd] ++ [mkNewTodo 8 "t1" cTData] ∧
    (addTodo 8 "t1" true [cTd] cTData).2.length = [cTd].length + 1 :=
  add_fresh_spec 6 "t1" [cEx] cData 8 "t1" [cTd] cTData
    (by decide) rfl (by decide) rfl

/-- C1 counterexample: `generateId()` (`Date.now() + Math.random()`) is not
checked against the stored ids; when it collides with the stored id 5 —
which nothing in the code prevents — `addExpense` returns a record whose id
*equals* an existing record's id, so the claim as stated fails. -/
theorem addExpense_id_collision :
    (addExpense 5 "t1" true [cEx] cData).1 = some (mkNewExpense 5 "t1" cData) ∧
    (mkNewExpense 5 "t1" cData).id ∈ [cEx].map Expense.id := by
  exact ⟨rfl, by decide⟩

/-! ### C5: getExpenseStats -/

/-- Modelled from the spec's words (for comparison with the code's filter):
the date-range check is "inclusive on both ends when a bound is supplied;
omitted bounds impose no constraint on that side". -/
def specDateInRange (sd ed : Option String) (d : String) : Bool :=
  sd.all (fun s => decide (s ≤ d)) && ed.all (fun t => decide (d ≤ t))

/-- The executable comparison agrees with `String`'s order. -/
theorem dateLtb_eq_decide_lt (a b : String) : dateLtb a b = decide (a < b) := by
  rw [dateLtb, decide_eq_decide]
  exact String.lt_iff_toList_lt.symm

/-- Excluding `a < b` is including `b ≤ a` (JavaScript's `<` on the date
strings versus the spec's inclusive bound). -/
theorem bool_not_lt (a b : String) : (!dateLtb a b) = decide (b ≤ a) := by
  rw [dateLtb_eq_decide_lt, ← decide_not, decide_eq_decide]
  exact not_lt

/-- The guarded strict-inequality filter at the top of `getExpenseStats`
equals one inclusive filter by `specDateInRange` (when both bounds are
omitted the code skips filtering, which keeps every record too). -/
theorem getExpenseStats_filter_eq (sd ed : Option String) (l : List Expense) :
    (if sd.isSome || ed.isSome then
      l.filter (fun e =>
        !(sd.any (fun s => dateLtb e.date s)) &&
        !(ed.any (fun t => dateLtb t e.date)))
    else l) = l.filter (fun e => specDateInRange sd ed e.date) := by
  cases sd with
  | none =>
    cases ed with
    | none => simp [specDateInRange]
    | some t =>
      refine Eq.trans (if_pos rfl) ?_
      refine List.filter_congr (fun e _ => ?_)
      simp only [specDateInRange, Option.any_none, Option.any_some,
        Option.all_none, Option.all_some, Bool.not_false, Bool.true_and]
      exact bool_not_lt t e.date
  | some s =>
    cases ed with
    | none =>
      refine Eq.trans (if_pos rfl) ?_
      refine List.filter_congr (fun e _ => ?_)
      simp only [specDateInRange, Option.any_none, Option.any_some,
        Option.all_none, Option.all_some, Bool.not_false, Bool.and_true]
      exact bool_not_lt e.date s
    | some t =>
      refine Eq.trans (if_pos rfl) ?_
      refine List.filter_congr (fun e _ => ?_)
      simp only [specDateInRange, Option.any_some, Option.all_some]
      rw [bool_not_lt e.date s, bool_not_lt t e.date]

/-- C5: `stats(startDate?, endDate?)` filters with the inclusive /
unconstrained date-range check, its `totalIncome`/`totalExpense` are the
sums of the amounts of the filtered income and expense records, the three
counts are the corresponding lengths, and `balance = totalIncome -
totalExpense`. -/
theorem getExpenseStats_spec (sd ed : Option String) (l : List Expense) :
    getExpenseStats sd ed l =
      { totalIncome := (((l.filter (fun e => specDateInRange sd ed e.date)).filter
            (fun e => e.type == "income")).map Expense.amount).sum
        totalExpense := (((l.filter (fun e => specDateInRange sd ed e.date)).filter
            (fun e => e.type == "expense")).map Expense.amount).sum
        balance := (((l.filter (fun e => specDateInRange sd ed e.date)).filter
            (fun e => e.type == "income")).map Expense.amount).sum -
          (((l.filter (fun e => specDateInRange sd ed e.date)).filter
            (fun e => e.type == "expense")).map Expense.amount).sum
        incomeCount := ((l.filter (fun e => specDateInRange sd ed e.date)).filter
            (fun e => e.type == "income")).length
        expenseCount := ((l.filter (fun e => specDateInRange sd ed e.date)).filter
            (fun e => e.type == "expense")).length
        totalCount := (l.filter (fun e => specDateInRange sd ed e.date)).length } ∧
    (getExpenseStats sd ed l).balance =
      (getExpenseStats sd ed l).totalIncome -
        (getExpenseStats sd ed l).totalExpense := by
  constructor
  · simp only [getExpenseStats]
    rw [getExpenseStats_filter_eq sd ed l]
    simp [foldl_add_amount]
  · rfl

/-! ### C4: monthly stats delegate to the month's first/last day -/

/-- C4: for a real year and month (`1 ≤ m ≤ 12` so that the calendar
arithmetic means "last day of this month"), `monthlyStats(y, m)` equals
`stats(firstDayOf(y,m), lastDayOf(y,m))`, where the last day follows the
variable Gregorian month length — 29 days for 2024-02 (leap year), 28 for
2023-02 — and the spec's concrete June-2025 scenario evaluates as stated. -/
theorem getMonthlyStats_spec (nowY nowM y m : Nat) (l : List Expense)
    (hy : 1 ≤ y) (hm1 : 1 ≤ m) (hm2 : m ≤ 12) :
    getMonthlyStats nowY nowM y m l =
      getExpenseStats (some (mkDateStr y m 1))
        (some (mkDateStr y m (daysInMonth y m))) l ∧
    daysInMonth 2024 2 = 29 ∧ daysInMonth 2023 2 = 28 ∧
    getMonthlyStats 2025 6 2025 6 scenarioLedger =
      { totalIncome := 50000, totalExpense := 950, balance := 49050,
        incomeCount := 1, expenseCount := 2, totalCount := 3 } := by
  refine ⟨?_, by decide, by decide, by decide⟩
  rw [getMonthlyStats]
  rw [if_neg (by omega : ¬ y = 0), if_neg (by omega : ¬ m = 0)]

/-- C4 witness: February 2024 (leap year). -/
theorem getMonthlyStats_spec_witness :
    getMonthlyStats 1 1 2024 2 scenarioLedger =
      getExpenseStats (some (mkDateStr 2024 2 1))
        (some (mkDateStr 2024 2 (daysInMonth 2024 2))) scenarioLedger ∧
    daysInMonth 2024 2 = 29 ∧ daysInMonth 2023 2 = 28 ∧
    getMonthlyStats 2025 6 2025 6 scenarioLedger =
      { totalIncome := 50000, totalExpense := 950, balance := 49050,
        incomeCount := 1, expenseCount := 2, totalCount := 3 } :=
  getMonthlyStats_spec 1 1 2024 2 scenarioLedger (by decide) (by decide)
    (by decide)

/-! ### C3: categoryStats accumulates raw amounts, with no sign convention -/

/-- What one record contributes to its category's accumulator: a fresh
`{count: 1, total: amount, type}` entry, or `count += 1; total += amount`
on the existing one (whose `type` is kept). -/
def accumStep (o : Option CategoryStat) (e : Expense) : Option CategoryStat :=
  match o with
  | none => some ⟨1, e.amount, e.type⟩
  | some s => some ⟨s.count + 1, s.total + e.amount, s.type⟩

/-- Looking a category up after one `bumpCategory` step. -/
theorem lookup_bumpCategory (acc : List (String × CategoryStat)) (e : Expense)
    (c : String) :
    (bumpCategory acc e).lookup c =
      if e.category = c then accumStep (acc.lookup c) e else acc.lookup c := by
  induction acc with
  | nil =>
    by_cases h : e.category = c
    · subst h
      simp [bumpCategory, List.lookup, accumStep]
    · rw [if_neg h]
      simp only [bumpCategory, List.lookup]
      rw [show (c == e.category) = false from
        beq_eq_false_iff_ne.mpr (fun hc => h hc.symm)]
  | cons hd rest ih =>
    obtain ⟨c', s⟩ := hd
    rw [bumpCategory]
    by_cases h1 : c' = e.category
    · rw [if_pos h1]
      by_cases h2 : c = c'
      · subst h2; subst h1
        simp [List.lookup, accumStep]
      · have hb : (c == c') = false := beq_eq_false_iff_ne.mpr h2
        rw [if_neg (fun hc => h2 (h1 ▸ hc.symm))]
        simp only [List.lookup, hb]
    · rw [if_neg h1]
      by_cases h2 : c = c'
      · subst h2
        rw [if_neg (fun hc => h1 hc.symm)]
        simp only [List.lookup, beq_self_eq_true]
      · have hb : (c == c') = false := beq_eq_false_iff_ne.mpr h2
        simp only [List.lookup, hb, ih]

/-- Looking a category up after the whole fold: only the records of that
category contribute, in order. -/
theorem lookup_foldl_bumpCategory (l : List Expense)
    (acc : List (String × CategoryStat)) (c : String) :
    (l.foldl bumpCategory acc).lookup c =
      (l.filter (fun e => e.category == c)).foldl accumStep (acc.lookup c) := by
  induction l generalizing acc with
  | nil => rfl
  | cons e es ih =>
    rw [List.foldl_cons, ih, lookup_bumpCategory]
    by_cases h : e.category = c
    · rw [if_pos h]
      rw [List.filter_cons_of_pos (by simpa using h), List.foldl_cons]
    · rw [if_neg h]
      rw [List.filter_cons_of_neg (by simpa using h)]

/-- Folding contributions onto an existing accumulator entry adds the
record count and the raw amount sum, and never touches `type`. -/
theorem foldl_accumStep_some (es : List Expense) (s : CategoryStat) :
    es.foldl accumStep (some s) =
      some ⟨s.count + es.length, s.total + (es.map Expense.amount).sum,
        s.type⟩ := by
  induction es generalizing s with
  | nil => simp
  | cons e es ih =>
    rw [List.foldl_cons]
    rw [show accumStep (some s) e =
      some ⟨s.count + 1, s.total + e.amount, s.type⟩ from rfl, ih]
    simp only [List.length_cons, List.map_cons, List.sum_cons,
      Option.some.injEq, CategoryStat.mk.injEq]
    refine ⟨by omega, by ring, trivial⟩

/-- C3 (amended): `categoryStats` does *not* apply the income-adds /
expense-subtracts sign convention: for every category, its `total` is the
plain sum of the raw `amount`s of the (optionally type-pre-filtered)
records of that category whatever their `type`, its `count` is their
number, and its `type` is the `type` of the category's first record. The
sign convention governs `stats`' `balance` (see `getExpenseStats_spec`),
not the per-category totals. -/
theorem getCategoryStats_raw_sums (ty : Option String) (l : List Expense)
    (c : String) :
    (getCategoryStats ty l).lookup c =
      match (filterByType ty l).filter (fun e => e.category == c) with
      | [] => none
      | e :: es =>
        some ⟨1 + es.length, e.amount + (es.map Expense.amount).sum,
          e.type⟩ := by
  rw [getCategoryStats, lookup_foldl_bumpCategory]
  cases h : (filterByType ty l).filter (fun e => e.category == c) with
  | nil => rfl
  | cons e es =>
    rw [List.foldl_cons]
    rw [show accumStep (List.lookup c []) e =
      some ⟨1, e.amount, e.type⟩ from rfl, foldl_accumStep_some]

/-- C3 counterexample: the category `"food"` holds an income of 100 and an
expense of 30; `getCategoryStats` reports `total = 130` (raw sum), not the
sign-convention value `100 - 30 = 70`, so the claim as stated is false. -/
theorem getCategoryStats_sign_counterexample :
    (getCategoryStats none [cIncFood, cExpFood]).lookup "food" =
      some ⟨2, 130, "income"⟩ ∧ (130 : Int) ≠ 100 - 30 := by decide

/-! ### C7: toggling a todo twice restores it -/

/-- Evaluating `toggleTodo` when the id is found at index `j` and the
persist write succeeds. -/
theorem toggleTodo_some (tl : List Todo) (i j : Nat)
    (h : tl.findIdx? (fun t => t.id == i) = some j) (hj : j < tl.length) :
    toggleTodo true tl i =
      (some { tl[j] with completed := !(tl[j]).completed },
        tl.set j { tl[j] with completed := !(tl[j]).completed }) := by
  simp only [toggleTodo, h, List.getElem?_eq_getElem hj, if_true]

/-- C7: for every todo id present in the sequence (found at index `j`),
applying `toggleCompletion(id)` twice (with both persist writes
succeeding) leaves the stored sequence — in particular the record's
completion flag — exactly as it was before the pair of calls, and the
second call returns the original record. -/
theorem toggleTodo_twice (tl : List Todo) (i j : Nat)
    (h : tl.findIdx? (fun t => t.id == i) = some j) :
    (toggleTodo true (toggleTodo true tl i).2 i).2 = tl ∧
    (toggleTodo true (toggleTodo true tl i).2 i).1 = tl[j]? := by
  obtain ⟨hj, hpj, hprev⟩ := List.findIdx?_eq_some_iff_getElem.mp h
  have e1 := toggleTodo_some tl i j h hj
  have hlen : j <
      (tl.set j { tl[j] with completed := !(tl[j]).completed }).length := by
    simpa using hj
  have h2 : (tl.set j { tl[j] with completed := !(tl[j]).completed }).findIdx?
      (fun t => t.id == i) = some j := by
    refine List.findIdx?_eq_some_iff_getElem.mpr ⟨hlen, ?_, ?_⟩
    · rw [List.getElem_set_self hlen]
      exact hpj
    · intro k hk
      rw [List.getElem_set_ne (by omega)]
      exact hprev k hk
  have e2 := toggleTodo_some _ i j h2 hlen
  rw [List.getElem_set_self hlen] at e2
  have hback : ({ { tl[j] with completed := !(tl[j]).completed } with
      completed := !(!(tl[j]).completed) } : Todo) = tl[j] := by
    rw [Bool.not_not]
  rw [e1]
  rw [e2, hback, List.set_set, set_getElem_self tl j hj]
  exact ⟨rfl, (List.getElem?_eq_getElem hj).symm⟩

/-- C7 witness: the sample todo (id 7, initially not completed). -/
theorem toggleTodo_twice_witness :
    (toggleTodo true (toggleTodo true [cTd] 7).2 7).2 = [cTd] ∧
    (toggleTodo true (toggleTodo true [cTd] 7).2 7).1 = [cTd][0]? :=
  toggleTodo_twice [cTd] 7 0 (by decide)

/-! ### C8: write-then-read round trip -/

/-- Reading back a serialized expense record recovers it exactly. -/
theorem decodeExpense_encodeExpense (e : Expense) :
    decodeExpense (encodeExpense e) = some e := rfl

/-- Reading back a serialized todo record recovers it exactly. -/
theorem decodeTodo_encodeTodo (t : Todo) :
    decodeTodo (encodeTodo t) = some t := rfl

/-- Reading back a serialized expense sequence recovers it element for
element. -/
theorem decodeExpenseList_encodeExpenseList (l : List Expense) :
    decodeExpenseList (encodeExpenseList l) = some l := by
  induction l with
  | nil => rfl
  | cons e es ih =>
    simp only [encodeExpenseList, decodeExpenseList] at ih ⊢
    rw [List.map_cons, List.mapM_cons, decodeExpense_encodeExpense, ih]
    rfl

/-- Todo counterpart of `decodeExpenseList_encodeExpenseList`. -/
theorem decodeTodoList_encodeTodoList (l : List Todo) :
    decodeTodoList (encodeTodoList l) = some l := by
  induction l with
  | nil => rfl
  | cons t ts ih =>
    simp only [encodeTodoList, decodeTodoList] at ih ⊢
    rw [List.map_cons, List.mapM_cons, decodeTodo_encodeTodo, ih]
    rfl

/-- Reading a key right after writing it returns the written value. -/
theorem storage_get_setItem (st : Store) (key : String) (v : JsonVal) :
    storage.get (setItem st key v true) key = v := by
  simp [storage.get, getItem, setItem]

/-- C8: for every key and every sequence of well-formed records — ledger or
todo — a successful `write(key, S)` followed by `read(key)` yields a parsed
array that reads back as exactly `S` (deep equality), both at the generic
`storage.set`/`storage.get` adapter level and at the service level
(`saveExpenses`/`loadExpenses`, `saveTodos`/`loadTodos`). -/
theorem write_read_roundtrip (st : Store) (key : String) (S : List Expense)
    (T : List Todo) :
    decodeExpenseList
        (storage.get (storage.set st key (encodeExpenseList S) true).2 key) =
      some S ∧
    decodeTodoList
        (storage.get (storage.set st key (encodeTodoList T) true).2 key) =
      some T ∧
    loadExpenses (saveExpenses st S true).2 = S ∧
    loadTodos (saveTodos st T true).2 = T := by
  refine ⟨?_, ?_, ?_, ?_⟩
  · show decodeExpenseList
        (storage.get (setItem st key (encodeExpenseList S) true) key) = some S
    rw [storage_get_setItem]
    exact decodeExpenseList_encodeExpenseList S
  · show decodeTodoList
        (storage.get (setItem st key (encodeTodoList T) true) key) = some T
    rw [storage_get_setItem]
    exact decodeTodoList_encodeTodoList T
  · show (decodeExpenseList
        (storage.get (setItem st "expenses" (encodeExpenseList S) true)
          "expenses")).getD [] = S
    rw [storage_get_setItem, decodeExpenseList_encodeExpenseList]
    rfl
  · show (decodeTodoList
        (storage.get (setItem st "todos" (encodeTodoList T) true)
          "todos")).getD [] = T
    rw [storage_get_setItem, decodeTodoList_encodeTodoList]
    rfl

/-! ### C9: initialization happens exactly once -/

/-- When the settings record is already present, `initializeData` returns
the store untouched. -/
theorem initializeData_of_isSome (now : String) (st : Store) (v : JsonVal)
    (h : getItem st "finance_settings" = some v) :
    initializeData now st = st := by
  simp only [initializeData, h]

/-- When the settings record is absent, `initializeData` creates an empty
sequence for every record kind and stamps the settings record. -/
theorem initializeData_of_none (now : String) (st : Store)
    (h : getItem st "finance_settings" = none) :
    getItem (initializeData now st) "finance_todos" = some (JsonVal.arr []) ∧
    getItem (initializeData now st) "finance_expenses" =
      some (JsonVal.arr []) ∧
    getItem (initializeData now st) "finance_budgets" =
      some (JsonVal.arr []) ∧
    getItem (initializeData now st) "finance_templates" =
      some (JsonVal.arr []) ∧
    getItem (initializeData now st) "finance_settings" =
      some (settingsObj now) := by
  simp only [initializeData, h]
  refine ⟨?_, ?_, ?_, ?_, ?_⟩ <;> simp [getItem, setItem]

/-- C9: the initialization module moves from uninitialized to initialized
exactly once. With the settings record absent, `initializeData` creates an
empty sequence under every record kind's key and a settings record carrying
the version (`"2.0"`) and currency (`"TWD"`) markers; with the settings
record present it changes no stored state; and running it again after a
first run (with any timestamp) is always a no-op. -/
theorem initializeData_spec (now nowB : String) (st : Store) :
    (∀ v, getItem st "finance_settings" = some v →
      initializeData now st = st) ∧
    (getItem st "finance_settings" = none →
      getItem (initializeData now st) "finance_todos" =
        some (JsonVal.arr []) ∧
      getItem (initializeData now st) "finance_expenses" =
        some (JsonVal.arr []) ∧
      getItem (initializeData now st) "finance_budgets" =
        some (JsonVal.arr []) ∧
      getItem (initializeData now st) "finance_templates" =
        some (JsonVal.arr []) ∧
      getItem (initializeData now st) "finance_settings" =
        some (settingsObj now)) ∧
    initializeData nowB (initializeData now st) = initializeData now st := by
  refine ⟨fun v hv => initializeData_of_isSome now st v hv,
    fun h => initializeData_of_none now st h, ?_⟩
  cases hs : getItem st "finance_settings" with
  | some v =>
    rw [initializeData_of_isSome now st v hs, initializeData_of_isSome nowB st v hs]
  | none =>
    exact initializeData_of_isSome nowB (initializeData now st)
      (settingsObj now) (initializeData_of_none now st hs).2.2.2.2

/-- C9 witness: on an empty store (settings absent) the four sequences are
created empty and the settings record is stamped; a second run changes
nothing. -/
theorem initializeData_spec_witness :
    (getItem (initializeData "t9" emptyStore) "finance_todos" =
      some (JsonVal.arr []) ∧
    getItem (initializeData "t9" emptyStore) "finance_expenses" =
      some (JsonVal.arr []) ∧
    getItem (initializeData "t9" emptyStore) "finance_budgets" =
      some (JsonVal.arr []) ∧
    getItem (initializeData "t9" emptyStore) "finance_templates" =
      some (JsonVal.arr []) ∧
    getItem (initializeData "t9" emptyStore) "finance_settings" =
      some (settingsObj "t9")) ∧
    initializeData "later" (initializeData "t9" emptyStore) =
      initializeData "t9" emptyStore :=
  ⟨(initializeData_spec "t9" "later" emptyStore).2.1 rfl,
   (initializeData_spec "t9" "later" emptyStore).2.2⟩
